import Mathlib

/-!
Verification development for the Diff Review Session Controller
(`src/ui/static/diff-viewer.js`).

The controller is a single-threaded, event-driven class (`DiffViewer`) whose
observable state is: the focused file index, the list of files (each with an
ordered list of proposed changes), the aggregate set of applied change ids,
the loaded session object, plus the few pieces of document state the
controller itself writes (the status-bar text and whether the action buttons
have been disabled).  Every authority interaction is a single request whose
response the code inspects; we embed each handler as a pure function from the
prior state and the authority's response to the new state together with the
list of requests issued and the user-visible messages shown.
-/

namespace DiffViewer

/-- One proposed change, as carried in the session snapshot
(field-for-field the wire shape consumed by `diff-viewer.js`). -/
structure Change where
  id : String
  change_type : String
  line_number : Nat
  old_content : Option String
  new_content : Option String
  reason : String
  applied : Bool
deriving DecidableEq, Repr

/-- One file of the session snapshot with its ordered change list. -/
structure SessionFile where
  file_path : String
  file_type : String
  original_content : String
  preview_content : String
  changes : List Change
deriving DecidableEq, Repr

/-- The session object kept in `this.session` (only the fields the
controller reads: `repository_name` and `status`). -/
structure Session where
  repository_name : String
  status : String
deriving DecidableEq, Repr

/-- Observable state of the `DiffViewer` instance.  `appliedChanges` embeds
the JS `Set` (`new Set`, `.add`, `.delete`, `.size`) as a `Finset String`.
`statusBarText` and `buttonsDisabled` record the two pieces of document
state that `completeSession` writes (`#session-status` text and the
`disabled` attribute it sets on every action button). -/
structure ViewerState where
  currentFileIndex : Int
  files : List SessionFile
  appliedChanges : Finset String
  session : Option Session
  statusBarText : String
  buttonsDisabled : Bool
deriving DecidableEq

/-- State built by the constructor: index 0, no files, empty applied set,
no session loaded yet. -/
def initState : ViewerState :=
  { currentFileIndex := 0
    files := []
    appliedChanges := ∅
    session := none
    statusBarText := ""
    buttonsDisabled := false }

/-- The set of ids of changes whose per-change `applied` flag is `true`:
the registry's flag-derived view `{ c.id : c.applied }`. -/
def appliedFlagIds (st : ViewerState) : Finset String :=
  (((st.files.flatMap (fun f => f.changes)).filter
      (fun c => c.applied)).map (fun c => c.id)).toFinset

/-- JS `a || b` on an optional string: the fallback is used when the field
is absent or the empty string (falsy). -/
def orDefault (o : Option String) (fallback : String) : String :=
  match o with
  | none => fallback
  | some s => if s = "" then fallback else s

/-- Truthiness of `data.error`: present and non-empty. -/
def errTruthy (o : Option String) : Bool :=
  match o with
  | none => false
  | some s => s ≠ ""

/-- Wire shape of the load-session response.  `files` and
`applied_changes` are optional: the code defaults them
(`data.files || []`, `new Set(data.applied_changes || [])`). -/
structure LoadResponse where
  error : Option String
  files : Option (List SessionFile)
  applied_changes : Option (List String)
  repository_name : String
  status : String
deriving DecidableEq

/-- Embeds `loadSession` (diff-viewer.js:26-44).  A truthy `data.error`
is thrown (`throw new Error(data.error)`), re-thrown by the catch, and the
caller's state is untouched; otherwise `this.session`, `this.files` and
`this.appliedChanges` are assigned in sequence from the response, with
missing `files` / `applied_changes` defaulted. -/
def loadSession (prev : ViewerState) (data : LoadResponse) :
    Except String ViewerState :=
  if errTruthy data.error then
    Except.error (orDefault data.error "")
  else
    Except.ok
      { prev with
        session := some { repository_name := data.repository_name
                          status := data.status }
        files := data.files.getD []
        appliedChanges := (data.applied_changes.getD []).toFinset }

/-- Authority response to one apply/unapply request: a JSON body with a
`success` flag (and optional `error`), or the request/parse throwing. -/
inductive Outcome where
  | success
  | failure (error : Option String)
  | thrown
deriving DecidableEq, Repr

/-- One request issued to the authority. -/
inductive Request where
  | applyReq (changeId : String)
  | unapplyReq (changeId : String)
  | completeReq
deriving DecidableEq, Repr

/-- Result of running one handler: the state afterwards, the requests it
issued, and the error / success messages surfaced to the user. -/
structure OpResult where
  state : ViewerState
  requests : List Request
  errorsShown : List String
  successShown : List String
deriving DecidableEq

/-- Embeds `applyChange` (diff-viewer.js:269-291).  One POST to
`/api/session/:id/apply` is issued; on `result.success` the id is added to
`this.appliedChanges` (the DOM element's class and button are updated via
`updateChangeElement`, but no field of the registry other than the
aggregate set — in particular not the change's `applied` flag — is
written); otherwise `showError(result.error || 'Failed to apply change')`
and the state is untouched. -/
def applyChange (st : ViewerState) (changeId : String) (outcome : Outcome) :
    OpResult :=
  match outcome with
  | Outcome.success =>
      { state := { st with appliedChanges := insert changeId st.appliedChanges }
        requests := [Request.applyReq changeId]
        errorsShown := []
        successShown := [] }
  | Outcome.failure e =>
      { state := st
        requests := [Request.applyReq changeId]
        errorsShown := [orDefault e "Failed to apply change"]
        successShown := [] }
  | Outcome.thrown =>
      { state := st
        requests := [Request.applyReq changeId]
        errorsShown := ["Failed to apply change"]
        successShown := [] }

/-- Embeds `unapplyChange` (diff-viewer.js:293-315): symmetric to
`applyChange`, removing the id from the aggregate set on success. -/
def unapplyChange (st : ViewerState) (changeId : String) (outcome : Outcome) :
    OpResult :=
  match outcome with
  | Outcome.success =>
      { state := { st with appliedChanges := st.appliedChanges.erase changeId }
        requests := [Request.unapplyReq changeId]
        errorsShown := []
        successShown := [] }
  | Outcome.failure e =>
      { state := st
        requests := [Request.unapplyReq changeId]
        errorsShown := [orDefault e "Failed to unapply change"]
        successShown := [] }
  | Outcome.thrown =>
      { state := st
        requests := [Request.unapplyReq changeId]
        errorsShown := ["Failed to unapply change"]
        successShown := [] }

/-- Authority response to the complete request (`success`, the list of
changes to be applied, optional `error`), or the request throwing. -/
inductive CompleteOutcome where
  | response (success : Bool) (applied_changes : List String)
      (error : Option String)
  | thrown
deriving DecidableEq

/-- Embeds `completeSession` (diff-viewer.js:362-389).  One POST to
`/api/session/:id/complete` is issued unconditionally — the function
contains no check of any completed status.  On `result.success` the
status-bar text is set to `Session: Completed` and every action button is
disabled; `this.session`, `this.files` and `this.appliedChanges` are not
written.  Otherwise an error is shown and nothing changes. -/
def completeSession (st : ViewerState) (outcome : CompleteOutcome) :
    OpResult :=
  match outcome with
  | CompleteOutcome.response true applied _ =>
      { state := { st with statusBarText := "Session: Completed"
                           buttonsDisabled := true }
        requests := [Request.completeReq]
        errorsShown := []
        successShown := ["Session completed! " ++ toString applied.length
          ++ " changes will be applied."] }
  | CompleteOutcome.response false _ e =>
      { state := st
        requests := [Request.completeReq]
        errorsShown := [orDefault e "Failed to complete session"]
        successShown := [] }
  | CompleteOutcome.thrown =>
      { state := st
        requests := [Request.completeReq]
        errorsShown := ["Failed to complete session"]
        successShown := [] }

/-- Loop body of `applyAllChanges`: skip the change when its id is in the
aggregate set, else `await this.applyChange(change.id)` with the
authority's outcome for that id, accumulating requests and messages. -/
def applyAllStep (auth : String → Outcome) (acc : OpResult) (c : Change) :
    OpResult :=
  if c.id ∈ acc.state.appliedChanges then acc
  else
    let r := applyChange acc.state c.id (auth c.id)
    { state := r.state
      requests := acc.requests ++ r.requests
      errorsShown := acc.errorsShown ++ r.errorsShown
      successShown := acc.successShown ++ r.successShown }

/-- Embeds `applyAllChanges` (diff-viewer.js:346-354): flatten the changes
of all files in order, and for each change not in `this.appliedChanges`
issue one apply request, awaiting each before the next; `auth` gives the
authority's response to the request for each id. -/
def applyAllChanges (st : ViewerState) (auth : String → Outcome) : OpResult :=
  (st.files.flatMap (fun f => f.changes)).foldl (applyAllStep auth)
    { state := st, requests := [], errorsShown := [], successShown := [] }

/-- Embeds `navigateFile` (diff-viewer.js:391-397): move the focus index by
`direction` only when the result lies in `[0, files.length)`; otherwise the
call changes nothing. -/
def navigateFile (st : ViewerState) (direction : Int) : ViewerState :=
  let newIndex := st.currentFileIndex + direction
  if 0 ≤ newIndex ∧ newIndex < (st.files.length : Int) then
    { st with currentFileIndex := newIndex }
  else st

/-- `totalChanges` of `updateProgress` (diff-viewer.js:400):
`files.reduce((sum, file) => sum + file.changes.length, 0)`. -/
def totalChanges (st : ViewerState) : Nat :=
  st.files.foldl (fun sum f => sum + f.changes.length) 0

/-- `appliedCount` of `updateProgress` (diff-viewer.js:401): the size of
the aggregate applied set. -/
def appliedCount (st : ViewerState) : Nat :=
  st.appliedChanges.card

/-- `percentage` of `updateProgress` (diff-viewer.js:402):
`totalChanges > 0 ? (appliedCount / totalChanges) * 100 : 0`, embedded over
the rationals. -/
def progressPercentage (st : ViewerState) : ℚ :=
  if totalChanges st > 0 then
    ((appliedCount st : ℚ) / (totalChanges st : ℚ)) * 100
  else 0

/-- The value produced by the display lookup: either a string (an own
value of the table, or the uppercased fallback) or a truthy non-string
value inherited from `Object.prototype` (a built-in function, or the
prototype object itself for the `__proto__` accessor), recorded by the
property name that reached it. -/
inductive JsValue where
  | str (s : String)
  | inherited (name : String)
deriving DecidableEq, Repr

/-- The own property names of `Object.prototype`: accessing any of these
on a plain object literal walks the prototype chain and yields a truthy,
non-string inherited value instead of `undefined`. -/
def protoKeys : List String :=
  ["constructor", "hasOwnProperty", "isPrototypeOf",
   "propertyIsEnumerable", "toLocaleString", "toString", "valueOf",
   "__defineGetter__", "__defineSetter__", "__lookupGetter__",
   "__lookupSetter__", "__proto__"]

/-- Embeds the lookup `typeMap[type]` on the object literal of
`formatChangeType` (diff-viewer.js:423-434).  An own key yields its
string value; the literal does not shadow `Object.prototype`, so a
prototype property name yields the inherited value; any other key yields
`undefined` (`none`).  None of the ten own keys is a prototype name, so
the branch order is immaterial. -/
def typeMap (type : String) : Option JsValue :=
  if type = "replace" then some (JsValue.str "MODIFY")
  else if type = "insert_after" then some (JsValue.str "INSERT")
  else if type = "insert_before" then some (JsValue.str "INSERT")
  else if type = "delete" then some (JsValue.str "DELETE")
  else if type = "create_file" then some (JsValue.str "CREATE")
  else if type = "delete_file" then some (JsValue.str "DELETE")
  else if type = "replace_range" then some (JsValue.str "MODIFY")
  else if type = "insert_many_after" then some (JsValue.str "INSERT")
  else if type = "insert_many_before" then some (JsValue.str "INSERT")
  else if type = "delete_many" then some (JsValue.str "DELETE")
  else if type ∈ protoKeys then some (JsValue.inherited type)
  else none

/-- `type.toUpperCase()`: uppercase each character (the change-type
vocabulary is ASCII, where this agrees with the JS Unicode mapping). -/
def jsToUpper (s : String) : String :=
  String.mk (s.data.map Char.toUpper)

/-- Embeds `formatChangeType` (diff-viewer.js:422-436):
`typeMap[type] || type.toUpperCase()`.  Every own value of the table is a
non-empty string and every inherited prototype value is truthy, so the
`||` fallback to `toUpperCase` is taken exactly when the lookup yields
`undefined`. -/
def formatChangeType (type : String) : JsValue :=
  match typeMap type with
  | some v => v
  | none => JsValue.str (jsToUpper type)

/-- The ten change-type strings the display table recognizes. -/
def knownChangeTypes : List String :=
  ["replace", "insert_after", "insert_before", "delete", "create_file",
   "delete_file", "replace_range", "insert_many_after",
   "insert_many_before", "delete_many"]

/-! ### Confirmation gate and event wiring

`setupEventListeners` (diff-viewer.js:46-118) wires the user events.  The
apply-all, skip-all and complete buttons route through `showConfirmation`,
which records a single pending zero-argument action and shows the modal;
`modal-confirm` hides the modal and invokes the pending action, if any;
`modal-cancel` hides the modal and discards it.  The keyboard shortcuts
call `navigateFile` / `completeSession` directly.  We embed the wiring as
a dispatch function from an event and the gate state to the new gate state
and the list of controller methods invoked. -/

/-- A pending confirmed action held by the gate. -/
inductive Action where
  | applyAllAct
  | completeAct
deriving DecidableEq, Repr

/-- Gate state: `this.pendingAction` and whether the modal is shown. -/
structure GateState where
  pendingAction : Option Action
  modalShown : Bool
deriving DecidableEq, Repr

/-- The user events wired in `setupEventListeners`. -/
inductive UIEvent where
  | clickPrevFile
  | clickNextFile
  | clickApplyAll
  | clickApplySelected
  | clickSkipAll
  | clickComplete
  | clickModalConfirm
  | clickModalCancel
  | keyCtrlArrowLeft
  | keyCtrlArrowRight
  | keyCtrlEnter
deriving DecidableEq, Repr

/-- A controller method invoked by a handler. -/
inductive ControllerCall where
  | navCall (direction : Int)
  | applyAllCall
  | applySelectedCall
  | completeCall
deriving DecidableEq, Repr

/-- The controller method a pending action invokes when confirmed. -/
def actionCall : Action → ControllerCall
  | Action.applyAllAct => ControllerCall.applyAllCall
  | Action.completeAct => ControllerCall.completeCall

/-- Embeds the handlers of `setupEventListeners` (diff-viewer.js:46-118):
which controller methods each event invokes and how the pending action
changes.  Note the `keydown` handler for Ctrl/Cmd+Enter
(diff-viewer.js:111-114) calls `completeSession` directly, and
`showConfirmation` (diff-viewer.js:451-456) overwrites any previously
pending action. -/
def dispatch (g : GateState) : UIEvent → GateState × List ControllerCall
  | UIEvent.clickPrevFile => (g, [ControllerCall.navCall (-1)])
  | UIEvent.clickNextFile => (g, [ControllerCall.navCall 1])
  | UIEvent.clickApplyAll =>
      ({ pendingAction := some Action.applyAllAct, modalShown := true }, [])
  | UIEvent.clickApplySelected => (g, [ControllerCall.applySelectedCall])
  | UIEvent.clickSkipAll =>
      ({ pendingAction := some Action.completeAct, modalShown := true }, [])
  | UIEvent.clickComplete =>
      ({ pendingAction := some Action.completeAct, modalShown := true }, [])
  | UIEvent.clickModalConfirm =>
      match g.pendingAction with
      | some a => ({ pendingAction := none, modalShown := false }, [actionCall a])
      | none => ({ pendingAction := none, modalShown := false }, [])
  | UIEvent.clickModalCancel =>
      ({ pendingAction := none, modalShown := false }, [])
  | UIEvent.keyCtrlArrowLeft => (g, [ControllerCall.navCall (-1)])
  | UIEvent.keyCtrlArrowRight => (g, [ControllerCall.navCall 1])
  | UIEvent.keyCtrlEnter => (g, [ControllerCall.completeCall])

/-! ### Concrete fixture states used by witnesses and counterexamples -/

/-- A sample change with the given id and applied flag. -/
def mkChange (id : String) (applied : Bool) : Change :=
  { id := id
    change_type := "replace"
    line_number := 1
    old_content := some "old"
    new_content := some "new"
    reason := "reason"
    applied := applied }

/-- A sample file holding the given changes. -/
def mkFile (changes : List Change) : SessionFile :=
  { file_path := "a.txt"
    file_type := "text"
    original_content := "before"
    preview_content := "after"
    changes := changes }

/-- One file with one unapplied change `c1`; empty applied set. -/
def stOne : ViewerState :=
  { initState with files := [mkFile [mkChange "c1" false]] }

/-- One file whose single change `c1` carries `applied = true` while the
aggregate applied set is empty (the shape `loadSession` produces when the
snapshot's flags and applied-id list disagree). -/
def stFlagTrue : ViewerState :=
  { initState with files := [mkFile [mkChange "c1" true]] }

/-- One file with one change, but an applied set holding two ids that
belong to no file (nothing in `loadSession` rules this out). -/
def stOver : ViewerState :=
  { initState with files := [mkFile [mkChange "c1" false]]
                   appliedChanges := {"a", "b"} }

/-- A load response whose per-change flag (`applied = true` on `c1`)
disagrees with its explicit applied-id list (empty). -/
def dataDisagree : LoadResponse :=
  { error := none
    files := some [mkFile [mkChange "c1" true]]
    applied_changes := some []
    repository_name := "repo"
    status := "active" }

/-- The state `loadSession initState dataDisagree` produces. -/
def stDisagree : ViewerState :=
  { currentFileIndex := 0
    files := [mkFile [mkChange "c1" true]]
    appliedChanges := ∅
    session := some { repository_name := "repo", status := "active" }
    statusBarText := ""
    buttonsDisabled := false }

/-- A load response carrying only an error. -/
def dataErr : LoadResponse :=
  { error := some "boom"
    files := none
    applied_changes := none
    repository_name := ""
    status := "" }

/-- A load response with no error and both optional fields missing. -/
def dataEmpty : LoadResponse :=
  { error := none
    files := none
    applied_changes := none
    repository_name := "repo"
    status := "active" }

/-- The state reached from `stOne` after `completeSession` succeeds. -/
def stDone : ViewerState :=
  (completeSession stOne (CompleteOutcome.response true [] none)).state

/-! ### Helper lemmas -/

/-- Every call of `applyChange` issues exactly one apply request,
whatever the outcome. -/
lemma applyChange_requests_eq (st : ViewerState) (id : String)
    (oc : Outcome) : (applyChange st id oc).requests = [Request.applyReq id] := by
  cases oc <;> rfl

/-- Every call of `unapplyChange` issues exactly one unapply request. -/
lemma unapplyChange_requests_eq (st : ViewerState) (id : String)
    (oc : Outcome) :
    (unapplyChange st id oc).requests = [Request.unapplyReq id] := by
  cases oc <;> rfl

/-- Every call of `completeSession` issues exactly one complete request. -/
lemma completeSession_requests_eq (st : ViewerState) (co : CompleteOutcome) :
    (completeSession st co).requests = [Request.completeReq] := by
  cases co with
  | response b l e => cases b <;> rfl
  | thrown => rfl

/-- `applyChange` never writes the files array (so never a per-change
`applied` flag). -/
lemma applyChange_files_eq (st : ViewerState) (id : String) (oc : Outcome) :
    (applyChange st id oc).state.files = st.files := by
  cases oc <;> rfl

/-- Membership of any other id in the applied set is untouched by
`applyChange`. -/
lemma applyChange_mem_of_ne (st : ViewerState) (id x : String) (oc : Outcome)
    (hx : x ≠ id) :
    (x ∈ (applyChange st id oc).state.appliedChanges ↔
      x ∈ st.appliedChanges) := by
  cases oc <;> simp [applyChange, Finset.mem_insert, hx]

/-- Requests accumulated by the `applyAllChanges` fold: when the change
ids are pairwise distinct, the fold issues exactly one apply request for
each change whose id is outside the applied set the fold started from, in
list order, whatever the outcomes are. -/
lemma applyAll_fold_requests (auth : String → Outcome) :
    ∀ (cs : List Change) (acc : OpResult),
      (cs.map (fun c => c.id)).Nodup →
      (List.foldl (applyAllStep auth) acc cs).requests =
        acc.requests ++
          (cs.filter (fun c => c.id ∉ acc.state.appliedChanges)).map
            (fun c => Request.applyReq c.id) := by
  intro cs
  induction cs with
  | nil =>
    intro acc _
    simp
  | cons c cs ih =>
    intro acc hnd
    rw [List.map_cons, List.nodup_cons] at hnd
    obtain ⟨hcid, hnd'⟩ := hnd
    rw [List.foldl_cons]
    by_cases hmem : c.id ∈ acc.state.appliedChanges
    · have hstep : applyAllStep auth acc c = acc := by
        simp [applyAllStep, hmem]
      rw [hstep, ih acc hnd', List.filter_cons]
      simp [hmem]
    · have hstep : applyAllStep auth acc c =
          { state := (applyChange acc.state c.id (auth c.id)).state
            requests := acc.requests ++ [Request.applyReq c.id]
            errorsShown := acc.errorsShown
              ++ (applyChange acc.state c.id (auth c.id)).errorsShown
            successShown := acc.successShown
              ++ (applyChange acc.state c.id (auth c.id)).successShown } := by
        simp [applyAllStep, hmem, applyChange_requests_eq]
      rw [hstep, ih _ hnd']
      have hfilter : cs.filter (fun c' =>
            c'.id ∉ (applyChange acc.state c.id
              (auth c.id)).state.appliedChanges)
          = cs.filter (fun c' => c'.id ∉ acc.state.appliedChanges) := by
        apply List.filter_congr
        intro x hx
        have hxid : x.id ≠ c.id := by
          intro hcontra
          exact hcid (hcontra ▸ List.mem_map_of_mem (fun c => c.id) hx)
        simp only [decide_eq_decide]
        exact not_congr
          (applyChange_mem_of_ne acc.state c.id x.id (auth c.id) hxid)
      rw [hfilter, List.filter_cons, if_pos (by simpa using hmem),
        List.map_cons]
      simp

/-! ### Claim theorems -/

/-- C1: the claim states that after every apply/unapply outcome the
aggregate applied set equals `{ c.id : c.applied }`, every successful
mutation updating both.  The code updates only the aggregate set: from the
consistent state `stOne` (flag false, set empty), a successful
`applyChange "c1"` adds `c1` to the set but leaves every per-change
`applied` flag untouched, so the two representations disagree afterwards. -/
theorem applied_set_drift_on_success :
    appliedFlagIds stOne = stOne.appliedChanges ∧
    (applyChange stOne "c1" Outcome.success).state.files = stOne.files ∧
    (applyChange stOne "c1" Outcome.success).state.appliedChanges ≠
      appliedFlagIds (applyChange stOne "c1" Outcome.success).state :=
  ⟨by decide, rfl, by decide⟩

/-- C2 (counterexample): after a successful `completeSession` (state
`stDone`), a subsequent `applyChange` still issues a request to the
authority and still mutates the registry, and a subsequent
`completeSession` still issues a request — nothing is rejected locally. -/
theorem complete_freeze_counterexample :
    (completeSession stOne (CompleteOutcome.response true [] none)).state
      = stDone ∧
    stDone.statusBarText = "Session: Completed" ∧
    (applyChange stDone "c1" Outcome.success).requests ≠ [] ∧
    (applyChange stDone "c1" Outcome.success).state ≠ stDone ∧
    (completeSession stDone (CompleteOutcome.response true [] none)).requests
      ≠ [] :=
  ⟨rfl, rfl, by decide, by decide, by decide⟩

/-- C2 (amended): a successful `completeSession` disables the action
buttons and rewrites the status bar (blocking the click-driven entry
points at the interface level) while leaving the registry untouched, but
`applyChange`, `unapplyChange` and `completeSession` themselves contain no
completed-status check: on any state each call issues exactly one request
to the authority. -/
theorem complete_no_local_freeze (st : ViewerState) (id : String)
    (oc : Outcome) (co : CompleteOutcome) (l : List String) :
    (completeSession st
        (CompleteOutcome.response true l none)).state.buttonsDisabled
      = true ∧
    (completeSession st
        (CompleteOutcome.response true l none)).state.statusBarText
      = "Session: Completed" ∧
    (completeSession st
        (CompleteOutcome.response true l none)).state.appliedChanges
      = st.appliedChanges ∧
    (completeSession st (CompleteOutcome.response true l none)).state.files
      = st.files ∧
    (applyChange st id oc).requests = [Request.applyReq id] ∧
    (unapplyChange st id oc).requests = [Request.unapplyReq id] ∧
    (completeSession st co).requests = [Request.completeReq] :=
  ⟨rfl, rfl, rfl, rfl, applyChange_requests_eq st id oc,
   unapplyChange_requests_eq st id oc, completeSession_requests_eq st co⟩

/-- C3: when the authority reports `success: false` or the request throws,
neither `applyChange` nor `unapplyChange` mutates the state, and the
failure reason (`result.error || <generic message>`) is surfaced. -/
theorem failure_leaves_registry_unchanged (st : ViewerState) (id : String)
    (e : Option String) :
    (applyChange st id (Outcome.failure e)).state = st ∧
    (applyChange st id (Outcome.failure e)).errorsShown
      = [orDefault e "Failed to apply change"] ∧
    (applyChange st id Outcome.thrown).state = st ∧
    (applyChange st id Outcome.thrown).errorsShown
      = ["Failed to apply change"] ∧
    (unapplyChange st id (Outcome.failure e)).state = st ∧
    (unapplyChange st id (Outcome.failure e)).errorsShown
      = [orDefault e "Failed to unapply change"] ∧
    (unapplyChange st id Outcome.thrown).state = st ∧
    (unapplyChange st id Outcome.thrown).errorsShown
      = ["Failed to unapply change"] :=
  ⟨rfl, rfl, rfl, rfl, rfl, rfl, rfl, rfl⟩

/-- C6: `navigateFile` moves the focus index to `current + direction`
exactly when that lies in `[0, files.length)` and otherwise changes
nothing; in particular `navigate(-1)` at index 0 and `navigate(+1)` at the
last index are no-ops, and navigation never touches files or the applied
set. -/
theorem navigate_bounds (st : ViewerState) (d : Int)
    (_hd : d = -1 ∨ d = 1) :
    ((navigateFile st d).currentFileIndex =
      if 0 ≤ st.currentFileIndex + d ∧
          st.currentFileIndex + d < (st.files.length : Int)
      then st.currentFileIndex + d else st.currentFileIndex) ∧
    ((navigateFile st d).files = st.files ∧
      (navigateFile st d).appliedChanges = st.appliedChanges) ∧
    (st.currentFileIndex = 0 → navigateFile st (-1) = st) ∧
    (st.currentFileIndex = (st.files.length : Int) - 1 →
      navigateFile st 1 = st) := by
  refine ⟨?_, ⟨?_, ?_⟩, ?_, ?_⟩
  · simp only [navigateFile]
    split_ifs <;> rfl
  · simp only [navigateFile]
    split_ifs <;> rfl
  · simp only [navigateFile]
    split_ifs <;> rfl
  · intro h0
    simp only [navigateFile]
    rw [if_neg (by omega)]
  · intro hlast
    simp only [navigateFile]
    rw [if_neg (by omega)]

/-- C6 witness: at index 0 of the one-file state `stOne`,
`navigateFile (-1)` is a no-op. -/
theorem navigate_bounds_witness :
    ((-1 : Int) = -1 ∨ (-1 : Int) = 1) ∧ navigateFile stOne (-1) = stOne :=
  ⟨Or.inl rfl, (navigate_bounds stOne (-1) (Or.inl rfl)).2.2.1 rfl⟩

/-- C7 (counterexample): the object-literal lookup consults the
prototype chain, so for the unrecognized string `toString` the lookup
yields the inherited (truthy) `Object.prototype.toString` and the
`||` fallback is not taken: the display is not the uppercased label
`TOSTRING`, refuting the claim that every unknown string maps to its own
uppercased form. -/
theorem format_change_type_proto_counterexample :
    "toString" ∉ knownChangeTypes ∧
    formatChangeType "toString" = JsValue.inherited "toString" ∧
    formatChangeType "toString" ≠ JsValue.str (jsToUpper "toString") :=
  ⟨by decide, rfl, by decide⟩

/-- C7 (amended): the display classification never fails — each of the
ten known change-type strings maps to its MODIFY / INSERT / DELETE /
CREATE label, and every other string maps to its own uppercased form
except the `Object.prototype` property names, for which the lookup
returns the truthy inherited value and that value is displayed instead. -/
theorem format_change_type_display :
    (∀ type : String, type ∉ knownChangeTypes → type ∉ protoKeys →
      formatChangeType type = JsValue.str (jsToUpper type)) ∧
    (∀ type ∈ protoKeys, formatChangeType type = JsValue.inherited type) ∧
    formatChangeType "replace" = JsValue.str "MODIFY" ∧
    formatChangeType "insert_after" = JsValue.str "INSERT" ∧
    formatChangeType "insert_before" = JsValue.str "INSERT" ∧
    formatChangeType "delete" = JsValue.str "DELETE" ∧
    formatChangeType "create_file" = JsValue.str "CREATE" ∧
    formatChangeType "delete_file" = JsValue.str "DELETE" ∧
    formatChangeType "replace_range" = JsValue.str "MODIFY" ∧
    formatChangeType "insert_many_after" = JsValue.str "INSERT" ∧
    formatChangeType "insert_many_before" = JsValue.str "INSERT" ∧
    formatChangeType "delete_many" = JsValue.str "DELETE" := by
  refine ⟨?_, ?_, rfl, rfl, rfl, rfl, rfl, rfl, rfl, rfl, rfl, rfl⟩
  · intro type hk hp
    simp only [knownChangeTypes, List.mem_cons, List.not_mem_nil, or_false,
      not_or] at hk
    obtain ⟨h1, h2, h3, h4, h5, h6, h7, h8, h9, h10⟩ := hk
    simp [formatChangeType, typeMap, h1, h2, h3, h4, h5, h6, h7, h8, h9,
      h10, hp]
  · intro type hp
    fin_cases hp <;> rfl

/-- C7 witness: the unknown change type `frobnicate` (neither a known
type nor a prototype property name) displays as its own uppercased
label. -/
theorem format_change_type_display_witness :
    "frobnicate" ∉ knownChangeTypes ∧ "frobnicate" ∉ protoKeys ∧
    formatChangeType "frobnicate" = JsValue.str "FROBNICATE" :=
  ⟨by decide, by decide,
   (format_change_type_display.1 "frobnicate" (by decide)
     (by decide)).trans (by decide)⟩

/-- C4 (counterexample): the claim keys the bulk operator to the
per-change `applied` flag, but the code keys it to the aggregate set.  In
`stFlagTrue` (flag `true` on `c1`, empty set — the shape a load with
disagreeing snapshot fields produces) no change has `applied = false`, yet
`applyAllChanges` issues an apply request for `c1`. -/
theorem bulk_apply_flag_counterexample :
    (applyAllChanges stFlagTrue (fun _ => Outcome.success)).requests
      = [Request.applyReq "c1"] ∧
    ((stFlagTrue.files.flatMap (fun f => f.changes)).filter
        (fun c => c.applied = false)).map (fun c => Request.applyReq c.id)
      = [] ∧
    (applyAllChanges stFlagTrue (fun _ => Outcome.success)).requests ≠
      ((stFlagTrue.files.flatMap (fun f => f.changes)).filter
          (fun c => c.applied = false)).map (fun c => Request.applyReq c.id) :=
  ⟨by decide, by decide, by decide⟩

/-- C4 (amended): with pairwise-distinct change ids, `applyAllChanges`
issues exactly one apply request for every change whose id is not in the
aggregate applied set at call time, in file order then in-file change
order, sequentially; the request sequence is the same for every assignment
of outcomes, so one failure never prevents a later change from being
attempted. -/
theorem bulk_apply_set_order (st : ViewerState) (auth : String → Outcome)
    (hnd : ((st.files.flatMap (fun f => f.changes)).map
      (fun c => c.id)).Nodup) :
    (applyAllChanges st auth).requests =
      ((st.files.flatMap (fun f => f.changes)).filter
          (fun c => c.id ∉ st.appliedChanges)).map
        (fun c => Request.applyReq c.id) := by
  have h := applyAll_fold_requests auth
    (st.files.flatMap (fun f => f.changes))
    { state := st, requests := [], errorsShown := [], successShown := [] }
    hnd
  simpa [applyAllChanges] using h

/-- C4 witness: on `stOne` (one unapplied change, empty applied set) the
bulk operator issues exactly the one request for `c1`. -/
theorem bulk_apply_set_order_witness :
    ((stOne.files.flatMap (fun f => f.changes)).map (fun c => c.id)).Nodup ∧
    (applyAllChanges stOne (fun _ => Outcome.success)).requests
      = [Request.applyReq "c1"] :=
  ⟨by decide, (bulk_apply_set_order stOne (fun _ => Outcome.success)
      (by decide)).trans (by decide)⟩

/-- C5 (counterexample): nothing keeps the aggregate applied set inside
the ids of the files, and `updateProgress` does not clamp: in `stOver`
(one change in the registry, two foreign ids in the applied set) the
computed percentage is 200, violating the claimed upper bound of 100. -/
theorem progress_over_100 :
    progressPercentage stOver = 200 ∧ ¬ progressPercentage stOver ≤ 100 := by
  have ht : totalChanges stOver = 1 := by decide
  have ha : appliedCount stOver = 2 := by decide
  have h200 : progressPercentage stOver = 200 := by
    rw [progressPercentage, ht, ha]
    norm_num
  exact ⟨h200, by rw [h200]; norm_num⟩

/-- C5 (amended): the Progress Calculator computes `total` as the sum of
the change counts of all files, `appliedCount` as the size of the applied
set, and `percentage` as `100 * appliedCount / total` when `total > 0` and
`0` when `total = 0`; the percentage is always nonnegative, and is at most
100 whenever `appliedCount ≤ total` (which the code does not enforce). -/
theorem progress_formula_bounds (st : ViewerState) :
    totalChanges st = (st.files.map (fun f => f.changes.length)).sum ∧
    appliedCount st = st.appliedChanges.card ∧
    (totalChanges st = 0 → progressPercentage st = 0) ∧
    (0 < totalChanges st →
      progressPercentage st
        = 100 * (appliedCount st : ℚ) / (totalChanges st : ℚ)) ∧
    0 ≤ progressPercentage st ∧
    (appliedCount st ≤ totalChanges st → progressPercentage st ≤ 100) := by
  refine ⟨?_, rfl, ?_, ?_, ?_, ?_⟩
  · rw [totalChanges, ← List.foldl_map, List.sum_eq_foldl]
  · intro h0
    simp [progressPercentage, h0]
  · intro hpos
    rw [progressPercentage, if_pos hpos]
    ring
  · rw [progressPercentage]
    split_ifs with h
    · positivity
    · norm_num
  · intro hle
    rw [progressPercentage]
    split_ifs with h
    · have h1 : (appliedCount st : ℚ) / (totalChanges st : ℚ) ≤ 1 := by
        rw [div_le_one (by exact_mod_cast h)]
        exact_mod_cast hle
      nlinarith
    · norm_num

/-- C5 witness: on `stOne` the applied count (0) is at most the total (1)
and the percentage is within bounds. -/
theorem progress_formula_bounds_witness :
    appliedCount stOne ≤ totalChanges stOne ∧
    progressPercentage stOne ≤ 100 :=
  ⟨by decide, (progress_formula_bounds stOne).2.2.2.2.2 (by decide)⟩

/-- C8 (counterexample): `loadSession` takes the snapshot applied-id list
as the aggregate set but never touches the per-change flags, so on
`dataDisagree` (flag `true` on `c1`, empty applied-id list) the loaded
state has an empty aggregate set while the flag-derived set is `{c1}` —
the two representations do not agree after load. -/
theorem load_reconcile_counterexample :
    loadSession initState dataDisagree = Except.ok stDisagree ∧
    stDisagree.appliedChanges = ∅ ∧
    appliedFlagIds stDisagree = {"c1"} ∧
    stDisagree.appliedChanges ≠ appliedFlagIds stDisagree :=
  ⟨rfl, rfl, by decide, by decide⟩

/-- C8 (amended): on a response with no (non-empty) error field the
registry is initialized in one step — files verbatim from the snapshot
(per-change flags exactly as provided) and the aggregate set from the
snapshot applied-id list, with no reconciliation between the two; on a
truthy error field a `LoadError` is surfaced and no session state is
produced. -/
theorem load_initializes_from_snapshot (prev : ViewerState)
    (data : LoadResponse) (st' : ViewerState) :
    (loadSession prev data = Except.ok st' →
      errTruthy data.error = false ∧
      st'.files = data.files.getD [] ∧
      st'.appliedChanges = (data.applied_changes.getD []).toFinset ∧
      st'.session = some { repository_name := data.repository_name
                           status := data.status } ∧
      st'.currentFileIndex = prev.currentFileIndex) ∧
    (errTruthy data.error = true →
      loadSession prev data = Except.error (orDefault data.error "")) := by
  constructor
  · intro hok
    by_cases he : errTruthy data.error = true
    · rw [loadSession, if_pos he] at hok
      exact absurd hok (by simp)
    · rw [loadSession, if_neg he] at hok
      injection hok with h
      subst h
      simp only [Bool.not_eq_true] at he
      exact ⟨he, rfl, rfl, rfl, rfl⟩
  · intro he
    rw [loadSession, if_pos he]

/-- C8 witness: a response carrying `error = "boom"` surfaces the error. -/
theorem load_initializes_from_snapshot_witness :
    errTruthy dataErr.error = true ∧
    loadSession initState dataErr = Except.error "boom" :=
  ⟨by decide,
   by simpa [dataErr, orDefault] using
     (load_initializes_from_snapshot initState dataErr initState).2
       (by decide)⟩

/-- C9 (counterexample): the Ctrl/Cmd+Enter keydown handler invokes
`completeSession` directly, so a completion request is issued without any
pending confirmed action — the keyboard equivalent bypasses the
Confirmation Gate. -/
theorem keyboard_complete_bypasses_gate :
    (dispatch { pendingAction := none, modalShown := false }
        UIEvent.keyCtrlEnter).2 = [ControllerCall.completeCall] ∧
    ¬ (∀ (g : GateState) (e : UIEvent),
        ControllerCall.completeCall ∈ (dispatch g e).2 →
          e = UIEvent.clickModalConfirm) := by
  refine ⟨rfl, fun h => ?_⟩
  have h2 := h { pendingAction := none, modalShown := false }
    UIEvent.keyCtrlEnter (by decide)
  exact absurd h2 (by decide)

/-- C9 (amended): the skip-all, explicit-complete and apply-all button
paths issue no controller call directly — they only record the pending
action, which runs when the modal is confirmed; the only events whose
handlers invoke completion are the modal confirmation and the
Ctrl/Cmd+Enter shortcut, the latter without confirmation. -/
theorem completion_paths (g : GateState) :
    (dispatch g UIEvent.clickSkipAll).2 = [] ∧
    (dispatch g UIEvent.clickSkipAll).1.pendingAction
      = some Action.completeAct ∧
    (dispatch g UIEvent.clickComplete).2 = [] ∧
    (dispatch g UIEvent.clickComplete).1.pendingAction
      = some Action.completeAct ∧
    (dispatch g UIEvent.clickApplyAll).2 = [] ∧
    (∀ a, g.pendingAction = some a →
      dispatch g UIEvent.clickModalConfirm
        = ({ pendingAction := none, modalShown := false }, [actionCall a])) ∧
    (dispatch g UIEvent.keyCtrlEnter).2 = [ControllerCall.completeCall] ∧
    (∀ e, ControllerCall.completeCall ∈ (dispatch g e).2 →
      e = UIEvent.clickModalConfirm ∨ e = UIEvent.keyCtrlEnter) := by
  refine ⟨rfl, rfl, rfl, rfl, rfl, ?_, rfl, ?_⟩
  · intro a ha
    simp [dispatch, ha]
  · intro e he
    cases e <;>
      first
        | exact Or.inl rfl
        | exact Or.inr rfl
        | simp [dispatch] at he

/-- C9 witness: with a pending completion action, confirming the modal
invokes completion and clears the gate. -/
theorem completion_paths_witness :
    (⟨some Action.completeAct, true⟩ : GateState).pendingAction
      = some Action.completeAct ∧
    dispatch ⟨some Action.completeAct, true⟩ UIEvent.clickModalConfirm
      = (⟨none, false⟩, [ControllerCall.completeCall]) :=
  ⟨rfl, (completion_paths ⟨some Action.completeAct, true⟩).2.2.2.2.2.1
      Action.completeAct rfl⟩

/-- C10: a load response without an error field still succeeds, and a
missing `files` field or `applied_changes` field is defaulted to an empty
file list or an empty applied set respectively. -/
theorem load_defaults_missing_fields (prev : ViewerState)
    (data : LoadResponse) (he : data.error = none) :
    ∃ st', loadSession prev data = Except.ok st' ∧
      st'.files = data.files.getD [] ∧
      st'.appliedChanges = (data.applied_changes.getD []).toFinset ∧
      (data.files = none → st'.files = []) ∧
      (data.applied_changes = none → st'.appliedChanges = ∅) := by
  refine ⟨{ prev with
      session := some { repository_name := data.repository_name
                        status := data.status }
      files := data.files.getD []
      appliedChanges := (data.applied_changes.getD []).toFinset },
    ?_, rfl, rfl, ?_, ?_⟩
  · simp [loadSession, errTruthy, he]
  · intro hf
    simp [hf]
  · intro ha
    simp [ha]

/-- C10 witness: loading `dataEmpty` (no error, no files field, no
applied-changes field) succeeds with an empty registry. -/
theorem load_defaults_missing_fields_witness :
    dataEmpty.error = none ∧
    ∃ st', loadSession initState dataEmpty = Except.ok st' ∧
      st'.files = dataEmpty.files.getD [] ∧
      st'.appliedChanges = (dataEmpty.applied_changes.getD []).toFinset ∧
      (dataEmpty.files = none → st'.files = []) ∧
      (dataEmpty.applied_changes = none → st'.appliedChanges = ∅) :=
  ⟨rfl, load_defaults_missing_fields initState dataEmpty rfl⟩

end DiffViewer
